import Mathlib

/- Formal model of the simply_magic_areas Home Assistant integration:
the occupancy state machine in select.py (AreaStateSelect) and the light
actuation controller in light.py (AreaLightGroup).  Entity state lookups
are modelled as a function from entity ids to optional state strings;
times are rationals measured in seconds; timers are optional handles with
an event log recording schedule and cancel operations. -/

/-- Entity state lookup, modelling hass.states.get: a state string when
the entity exists, none otherwise. -/
abbrev Hass := String → Option String

/-- Modelled from the spec: the AreaState enumeration from const.py (not
included in the sources): Clear, Occupied, Extended, plus the configured
secondary states Bright, Sleep, Accessory. -/
inductive AreaState where
  | clear
  | occupied
  | extended
  | bright
  | sleep
  | accessory
  deriving DecidableEq, Repr

/-- Modelled from the spec: the string values of the AreaState enum, used
by the membership test in light.py line 200 and the AreaState constructor
call in line 208. -/
def parseAreaState (s : String) : Option AreaState :=
  if s = "clear" then some AreaState.clear
  else if s = "occupied" then some AreaState.occupied
  else if s = "extended" then some AreaState.extended
  else if s = "bright" then some AreaState.bright
  else if s = "sleep" then some AreaState.sleep
  else if s = "accessory" then some AreaState.accessory
  else none

/-- Modelled from the spec: the INVALID_STATES constant from const.py (not
included in the sources): unknown, unavailable and the empty string. -/
def INVALID_STATES : List String := ["unknown", "unavailable", ""]

/-- Model of the Python str.lower() call used in select.py line 318,
lowering each character (ASCII range, where Python and this model
coincide on the states involved). -/
def pyLower (s : String) : String :=
  String.mk (s.data.map Char.toLower)

/-- Uppercase ASCII letter test (codepoints 65 to 90), the notion of
uppercase used in the matching theorems. -/
def isUpperAscii (c : Char) : Bool :=
  65 ≤ c.toNat && c.toNat ≤ 90

/-- The equality test of select.py line 318:
entity.state.lower() == conf.entity_state_on. -/
def secMatch (entityState confOn : String) : Bool :=
  pyLower entityState == confOn

/-- Model of Python int() truncation toward zero on a rational. -/
def pyInt (q : ℚ) : ℤ :=
  if q < 0 then -(Int.floor (-q)) else Int.floor q

/-- Modelled from the spec: the StateConfigData record from base/magic.py
(not included in the sources), per secondary state: trigger entity,
trigger on value, resulting AreaState, actuator list and dim level, as
used by select.py lines 308 to 326 and light.py lines 268 to 282. -/
structure StateConfigData where
  entity : Option String
  entityStateOn : String
  forState : AreaState
  lights : List String
  dimLevel : ℚ
  deriving DecidableEq, Repr

/-- A scheduled or cancelled timer, recorded in an event log so that
timer lifecycle claims can be stated. -/
inductive TimerEvent where
  | sched (id : Nat) (delay : ℚ)
  | cancel (id : Nat)
  deriving DecidableEq, Repr

/-- Configuration of the AreaStateSelect entity: presence sensor list,
on states, meta flag, aggregation mode, trend entity ids, timeouts and
secondary state configurations. -/
structure SelectCtx where
  sensors : List String
  onStates : List String
  isMeta : Bool
  mode : String
  trendUpId : String
  trendDownId : String
  clearTimeout : ℤ
  extendedTimeout : ℤ
  stateConfigs : List StateConfigData

/-- Mutable state of the AreaStateSelect entity: current area state,
last off time, the two timer callbacks with a fresh handle counter and
event log, and the active sensor attributes. -/
structure SelectSt where
  areaState : AreaState
  lastOffTime : ℚ
  clearCb : Option Nat
  extendedCb : Option Nat
  nextTimerId : Nat
  timerLog : List TimerEvent
  activeSensorsAttr : List String
  lastActiveSensorsAttr : List String
  deriving DecidableEq, Repr

/-- select.py _remove_clear_timeout: no-op when no callback is pending,
otherwise invoke the cancel callable and drop the handle. -/
def removeClearTimeout (st : SelectSt) : SelectSt :=
  match st.clearCb with
  | none => st
  | some i =>
    { st with clearCb := none, timerLog := st.timerLog ++ [TimerEvent.cancel i] }

/-- select.py _set_clear_timeout: cancel any pending clear timer, then
schedule a new one. -/
def setClearTimeout (timeout : ℚ) (st : SelectSt) : SelectSt :=
  let st := if st.clearCb.isSome then removeClearTimeout st else st
  { st with clearCb := some st.nextTimerId,
            nextTimerId := st.nextTimerId + 1,
            timerLog := st.timerLog ++ [TimerEvent.sched st.nextTimerId timeout] }

/-- select.py _is_on_clear_timeout. -/
def isOnClearTimeout (st : SelectSt) : Bool :=
  st.clearCb.isSome

/-- select.py _remove_extended_timeout. -/
def removeExtendedTimeout (st : SelectSt) : SelectSt :=
  match st.extendedCb with
  | none => st
  | some i =>
    { st with extendedCb := none, timerLog := st.timerLog ++ [TimerEvent.cancel i] }

/-- select.py _set_extended_timeout. -/
def setExtendedTimeout (timeout : ℚ) (st : SelectSt) : SelectSt :=
  let st := if st.extendedCb.isSome then removeExtendedTimeout st else st
  { st with extendedCb := some st.nextTimerId,
            nextTimerId := st.nextTimerId + 1,
            timerLog := st.timerLog ++ [TimerEvent.sched st.nextTimerId timeout] }

/-- select.py _is_on_extended_timeout. -/
def isOnExtendedTimeout (st : SelectSt) : Bool :=
  st.extendedCb.isSome

/-- The sensor loop of _get_sensors_state (select.py lines 561 to 603):
skip missing entities, skip entities whose state is invalid, and collect
sensors whose state is among the valid states. -/
def computeActiveSensors (sensors validStates : List String) (hass : Hass) :
    List String :=
  sensors.filter fun s =>
    match hass s with
    | none => false
    | some v => if v ∈ INVALID_STATES then false else v ∈ validStates

/-- select.py _get_sensors_state: aggregate the presence sensors; when no
sensor is active, consult the humidity trend pair, appending the up trend
entity when it is on while the down trend is not, and refreshing the last
off time while the down trend is on; update the active sensor attributes;
return whether the area counts as occupied for the configured mode. -/
def getSensorsState (ctx : SelectCtx) (hass : Hass) (now : ℚ) (st : SelectSt) :
    Bool × SelectSt :=
  let validStates := if ctx.isMeta then ["on"] else ctx.onStates
  let active := computeActiveSensors ctx.sensors validStates hass
  let trendRes :=
    if active.length = 0 then
      match hass ctx.trendUpId, hass ctx.trendDownId with
      | some up, some down =>
        let active2 :=
          if up = "on" ∧ down ≠ "on" then active ++ [ctx.trendUpId] else active
        let st2 := if down = "on" then { st with lastOffTime := now } else st
        (active2, st2)
      | _, _ => (active, st)
    else (active, st)
  let active := trendRes.1
  let st := trendRes.2
  let st :=
    { st with activeSensorsAttr := active,
              lastActiveSensorsAttr :=
                if active ≠ [] then active else st.lastActiveSensorsAttr }
  if ctx.mode = "all" then (decide (active.length = ctx.sensors.length), st)
  else (decide (0 < active.length), st)

/-- One step of the secondary state loop of get_current_area_state
(select.py lines 308 to 326): a configuration with a present trigger
entity whose lowered state equals the configured on value overrides the
accumulated state. -/
def secStep (hass : Hass) (newState : AreaState) (conf : StateConfigData) :
    AreaState :=
  match conf.entity with
  | none => newState
  | some eid =>
    match hass eid with
    | none => newState
    | some v => if secMatch v conf.entityStateOn then conf.forState else newState

/-- The secondary state resolution of get_current_area_state: start from
Occupied and let the last matching configuration win. -/
def resolveSecondary (stateConfigs : List StateConfigData) (hass : Hass) :
    AreaState :=
  stateConfigs.foldl (secStep hass) AreaState.occupied

/-- Whether a secondary state configuration currently matches: its
trigger entity exists and its lowered state equals the configured on
value. -/
def secTriggerMatches (hass : Hass) (conf : StateConfigData) : Prop :=
  ∃ eid v, conf.entity = some eid ∧ hass eid = some v ∧
    secMatch v conf.entityStateOn = true

/-- The body of get_current_area_state after the sensor aggregation
(select.py lines 275 to 328), taking the aggregated occupancy flag: arm
and cancel the clear and extended timers and pick Clear, Extended or the
secondary resolution according to the elapsed time since the last off
time. -/
def evalOccupancy (ctx : SelectCtx) (hass : Hass) (now : ℚ)
    (occupiedState : Bool) (st : SelectSt) : AreaState × SelectSt :=
  let secondsSinceLastChange := now - st.lastOffTime
  let clearTimeout : ℚ := (ctx.clearTimeout : ℚ)
  let extendedTimeout : ℚ := (ctx.extendedTimeout : ℚ) + clearTimeout
  if ¬ occupiedState then
    let st :=
      if ¬ isOnClearTimeout st = true ∧ secondsSinceLastChange < clearTimeout then
        setClearTimeout (clearTimeout - secondsSinceLastChange) st
      else st
    if secondsSinceLastChange ≥ clearTimeout then
      if secondsSinceLastChange ≥ extendedTimeout then
        (AreaState.clear, removeExtendedTimeout st)
      else
        let st := removeClearTimeout st
        let st :=
          if ¬ isOnExtendedTimeout st = true ∧
              secondsSinceLastChange < extendedTimeout then
            setExtendedTimeout (extendedTimeout - secondsSinceLastChange) st
          else st
        (AreaState.extended, st)
    else
      (resolveSecondary ctx.stateConfigs hass, st)
  else
    let st := removeExtendedTimeout (removeClearTimeout st)
    (resolveSecondary ctx.stateConfigs hass, st)

/-- select.py get_current_area_state: aggregate the sensors, then
evaluate the occupancy windows and secondary states. -/
def getCurrentAreaState (ctx : SelectCtx) (hass : Hass) (now : ℚ)
    (st : SelectSt) : AreaState × SelectSt :=
  let res := getSensorsState ctx hass now st
  evalOccupancy ctx hass now res.1 res.2

/-- select.py _update_state: evaluate the current area state and commit
it when it differs from the last state. -/
def updateState (ctx : SelectCtx) (hass : Hass) (now : ℚ) (st : SelectSt) :
    SelectSt :=
  let lastState := st.areaState
  let res := getCurrentAreaState ctx hass now st
  if lastState = res.1 then res.2
  else { res.2 with areaState := res.1 }

/-- select.py _sensor_state_change: ignore missing and invalid new
states; on a transition to a non-empty state outside the on states,
refresh the last off time and cancel the clear timer; then re-evaluate. -/
def sensorStateChange (ctx : SelectCtx) (hass : Hass)
    (newState : Option String) (now : ℚ) (st : SelectSt) : SelectSt :=
  match newState with
  | none => st
  | some toState =>
    if toState ∈ INVALID_STATES then st
    else
      let st :=
        if toState ≠ "" ∧ toState ∉ ctx.onStates then
          removeClearTimeout { st with lastOffTime := now }
        else st
      updateState ctx hass now st

/-- A service call issued by the light controller. -/
inductive LightCmd where
  | turnOn (brightness : ℤ)
  | turnOff
  deriving DecidableEq, Repr

/-- Configuration of the AreaLightGroup: illuminance thresholds, the
administrative control flag for ControlType.System, the manual timeout
and the illuminance sensor entity id. -/
structure LightCfg where
  minBrightness : ℚ
  maxBrightness : ℚ
  systemControlEnabled : Bool
  manualTimeout : ℚ
  illumSensorId : String
  deriving DecidableEq, Repr

/-- Mutable state of the AreaLightGroup: member entity ids, the group
on state and brightness as reported by the group, the controller
originated flag, the attribute map entries for manual control and last
on illuminance, and the manual timeout callback modelled as the armed
delay. -/
structure LightSt where
  entityIds : List String
  isOn : Bool
  brightness : Option ℤ
  lastUpdateFromEntity : Bool
  manualControlAttr : Option Bool
  lastOnIlluminance : Option ℚ
  manualTimeoutCb : Option ℚ
  deriving DecidableEq, Repr

/-- Digit accumulator for the decimal parser. -/
def parseDigitsAux : List Char → Nat → Option Nat
  | [], acc => some acc
  | c :: cs, acc =>
    if c.isDigit then parseDigitsAux cs (acc * 10 + (c.toNat - 48)) else none

/-- Modelled from the spec: Python float(...) parsing on plain decimal
literals with an optional sign and an optional fraction part; any other
string raises ValueError, modelled as none. -/
def parseFloat (s : String) : Option ℚ :=
  let signed : Bool × List Char :=
    match s.data with
    | '-' :: rest => (true, rest)
    | '+' :: rest => (false, rest)
    | cs => (false, cs)
  let val : Option ℚ :=
    match signed.2.splitOn '.' with
    | [ip] =>
      if ip.isEmpty then none
      else (parseDigitsAux ip 0).map fun n => (n : ℚ)
    | [ip, fp] =>
      if ip.isEmpty ∧ fp.isEmpty then none
      else
        match parseDigitsAux ip 0, parseDigitsAux fp 0 with
        | some i, some f => some ((i : ℚ) + (f : ℚ) / ((10 : ℚ) ^ fp.length))
        | _, _ => none
    | _ => none
  val.map fun v => if signed.1 then -v else v

/-- light.py _get_illuminance: when the group is on, reuse the stored
last on illuminance (or 0 when absent) without reading the sensor;
otherwise read the illuminance sensor, storing and returning its value,
storing and returning 0 when the entity is missing, and returning 0
without storing when the state does not parse as a float. -/
def getIlluminance (cfg : LightCfg) (hass : Hass) (st : LightSt) :
    ℚ × LightSt :=
  if st.isOn then
    match st.lastOnIlluminance with
    | some v => (v, st)
    | none => (0, st)
  else
    match hass cfg.illumSensorId with
    | none => (0, { st with lastOnIlluminance := some 0 })
    | some sv =>
      match parseFloat sv with
      | some v => (v, { st with lastOnIlluminance := some v })
      | none => (0, st)

/-- light.py _is_controlled_by_this_entity: read the manual control
attribute, defaulting to False. -/
def isControlledByThisEntity (st : LightSt) : Bool :=
  st.manualControlAttr.getD false

/-- light.py _set_controlled_by_this_entity: the body only calls
dict.get on the attribute map and discards the result, so the state is
returned unchanged. -/
def setControlledByThisEntity (st : LightSt) (enabled : Bool) : LightSt :=
  st

/-- light.py _reset_control. -/
def resetControl (st : LightSt) : LightSt :=
  setControlledByThisEntity st true

/-- light.py _reset_manual_timeout. -/
def resetManualTimeout (st : LightSt) : LightSt :=
  { setControlledByThisEntity st true with manualTimeoutCb := none }

/-- light.py _turn_off_light: no-op when the group is already off or
when system control is disabled; otherwise flag the next self observed
change as controller originated and issue a turn_off call. -/
def turnOffLight (cfg : LightCfg) (st : LightSt) : LightSt × List LightCmd :=
  if ¬ st.isOn = true then (st, [])
  else if ¬ cfg.systemControlEnabled = true then (st, [])
  else ({ st with lastUpdateFromEntity := true }, [LightCmd.turnOff])

/-- The brightness adjustment of _turn_on_light (light.py lines 302 to
319): keep the nominal brightness at or below the minimum threshold,
force 0 above the maximum threshold, and otherwise scale the nominal
brightness linearly toward 0 as illuminance approaches the maximum. -/
def computeBrightness (cfg : LightCfg) (nominal : ℤ) (lum : ℚ) : ℤ :=
  if lum > cfg.minBrightness then
    if lum > cfg.maxBrightness then 0
    else
      let diff := lum - cfg.minBrightness
      pyInt ((nominal : ℚ) *
        (1 - diff / (cfg.maxBrightness - cfg.minBrightness)))
  else nominal

/-- light.py _turn_on_light: adopt the configured light set (the group
state refresh of async_update_group_state is host platform glue and is
modelled as reading the snapshot already in the state); no-op when the
group is already on at exactly the nominal brightness; read illuminance
and adjust the brightness; abort when system control is disabled; route
to the turn off procedure when the adjusted brightness is 0; otherwise
flag the next self observed change as controller originated and issue a
turn_on call with the adjusted brightness. -/
def turnOnLight (cfg : LightCfg) (conf : StateConfigData) (hass : Hass)
    (st : LightSt) : LightSt × List LightCmd :=
  let st := { st with entityIds := conf.lights }
  let nominal := pyInt (conf.dimLevel * 255 / 100)
  if st.isOn = true ∧ st.brightness = some nominal then (st, [])
  else
    let read := getIlluminance cfg hass st
    let lum := read.1
    let st := read.2
    let brightness := computeBrightness cfg nominal lum
    if ¬ cfg.systemControlEnabled = true then (st, [])
    else if brightness = 0 then turnOffLight cfg st
    else ({ st with lastUpdateFromEntity := true }, [LightCmd.turnOn brightness])

/-- light.py _area_state_change: ignore events without both states or
with a new state outside the AreaState values; when the new state has a
configured state record, run the turn on procedure with it. -/
def areaStateChange (cfg : LightCfg)
    (stateConfOf : AreaState → Option StateConfigData) (hass : Hass)
    (oldState newState : Option String) (st : LightSt) :
    LightSt × List LightCmd :=
  match oldState, newState with
  | some _, some ns =>
    match parseAreaState ns with
    | none => (st, [])
    | some toState =>
      match stateConfOf toState with
      | none => (st, [])
      | some conf => turnOnLight cfg conf hass st
  | _, _ => (st, [])

/-- An observed state of the managed group entity, with the restored
attribute. -/
structure EventState where
  state : String
  restored : Bool
  deriving DecidableEq, Repr

/-- light.py _update_group_state: when the area state is not Clear,
reset control; otherwise, for an actual on and off transition, re-arm
the manual timeout on restored states, consume the controller originated
flag, or record a manual change and arm the manual timeout. -/
def updateGroupState (cfg : LightCfg) (areaState : AreaState)
    (oldState newState : Option EventState) (st : LightSt) : LightSt :=
  if areaState ≠ AreaState.clear then resetControl st
  else
    match oldState, newState with
    | some old, some new =>
      if old.state ∉ ["on", "off"] then st
      else if new.state ∉ ["on", "off"] then st
      else if old.restored then
        if ¬ isControlledByThisEntity st = true then
          { st with manualTimeoutCb := some cfg.manualTimeout }
        else st
      else if st.lastUpdateFromEntity then
        { st with lastUpdateFromEntity := false }
      else
        { setControlledByThisEntity st false with
            manualTimeoutCb := some cfg.manualTimeout }
    | _, _ => st

/-- The effect of a dispatched service call on the state reported by the
group, used to express idempotence across two successive invocations:
turn_on leaves the group on at the commanded brightness, turn_off leaves
it off. -/
def applyCmd (st : LightSt) : LightCmd → LightSt
  | LightCmd.turnOn b => { st with isOn := true, brightness := some b }
  | LightCmd.turnOff => { st with isOn := false, brightness := none }

/-- Apply a list of dispatched service calls in order. -/
def applyCmds (st : LightSt) (cmds : List LightCmd) : LightSt :=
  cmds.foldl applyCmd st

/-- Char.ofNat keeps the codepoint for lowercase ASCII letters. -/
theorem charOfNat_toNat_of_le (n : Nat) (h1 : 97 ≤ n) (h2 : n ≤ 122) :
    (Char.ofNat n).toNat = n := by
  have hv : n.isValidChar := Or.inl (by omega)
  simp [Char.ofNat, hv, Char.ofNatAux, Char.toNat, UInt32.toNat,
    BitVec.toNat_ofNatLt]

/-- Lowering an uppercase ASCII letter shifts it by 32. -/
theorem toLower_eq_of_upper (c : Char) (h : 65 ≤ c.toNat ∧ c.toNat ≤ 90) :
    Char.toLower c = Char.ofNat (c.toNat + 32) := by
  show (if c.toNat ≥ 65 ∧ c.toNat ≤ 90 then Char.ofNat (c.toNat + 32) else c) = _
  exact if_pos ⟨h.1, h.2⟩

/-- Lowering any other character is the identity. -/
theorem toLower_eq_self (c : Char) (h : ¬ (65 ≤ c.toNat ∧ c.toNat ≤ 90)) :
    Char.toLower c = c := by
  show (if c.toNat ≥ 65 ∧ c.toNat ≤ 90 then Char.ofNat (c.toNat + 32) else c) = _
  exact if_neg h

/-- Lowering a character never yields an uppercase ASCII letter. -/
theorem toLower_not_upperAscii (c : Char) :
    isUpperAscii (Char.toLower c) = false := by
  by_cases h : 65 ≤ c.toNat ∧ c.toNat ≤ 90
  · rw [toLower_eq_of_upper c h]
    unfold isUpperAscii
    have ht : (Char.ofNat (c.toNat + 32)).toNat = c.toNat + 32 :=
      charOfNat_toNat_of_le (c.toNat + 32) (by omega) (by omega)
    rw [ht]
    simp only [Bool.and_eq_false_iff, decide_eq_false_iff_not]
    omega
  · rw [toLower_eq_self c h]
    unfold isUpperAscii
    simp only [Bool.and_eq_false_iff, decide_eq_false_iff_not]
    omega

/-- No character of a lowered string is an uppercase ASCII letter. -/
theorem pyLower_chars_not_upper (s : String) :
    ∀ c ∈ (pyLower s).data, isUpperAscii c = false := by
  intro c hc
  simp only [pyLower, List.mem_map] at hc
  obtain ⟨a, _, rfl⟩ := hc
  exact toLower_not_upperAscii a

/-- C10: secondary-state trigger matching is case-insensitive on the
trigger entity side only: the trigger entity state is lowercased before
being compared to the configured on value, so any state lowering to the
configured value matches, while a configured on value containing an
uppercase ASCII letter matches no entity state. -/
theorem c10_matching_case_insensitive_on_entity_side :
    (∀ s c : String, pyLower s = c → secMatch s c = true) ∧
    (∀ c : String, (∃ ch ∈ c.data, isUpperAscii ch = true) →
      ∀ s : String, secMatch s c = false) := by
  constructor
  · intro s c h
    simp [secMatch, h]
  · rintro c ⟨ch, hch, hu⟩ s
    simp only [secMatch, beq_eq_false_iff_ne, ne_eq]
    intro hEq
    have hlow := pyLower_chars_not_upper s ch (by rw [hEq]; exact hch)
    rw [hlow] at hu
    cases hu

/-- C10 witness: an uppercase variant of a lowercase configured value
matches, and a configured value with an uppercase letter never does. -/
theorem c10_witness :
    secMatch "ON" "on" = true ∧ secMatch "x" "On" = false :=
  ⟨c10_matching_case_insensitive_on_entity_side.1 "ON" "on" (by decide),
    c10_matching_case_insensitive_on_entity_side.2 "On"
      ⟨'O', by decide, by decide⟩ "x"⟩

/-- One secondary step either keeps the accumulator or selects the
matching configuration. -/
theorem secStep_cases (hass : Hass) (acc : AreaState) (conf : StateConfigData) :
    secStep hass acc conf = acc ∨
      (secTriggerMatches hass conf ∧ secStep hass acc conf = conf.forState) := by
  unfold secStep secTriggerMatches
  cases he : conf.entity with
  | none => left; rfl
  | some eid =>
    cases hv : hass eid with
    | none => left; simp [hv]
    | some v =>
      by_cases hm : secMatch v conf.entityStateOn = true
      · right
        exact ⟨⟨eid, v, rfl, hv, hm⟩, by simp [hv, hm]⟩
      · left
        simp [hv, hm]

/-- Folding the secondary step either keeps the initial state or ends on
the resulting state of some matching configuration. -/
theorem foldl_secStep_cases (hass : Hass) (configs : List StateConfigData) :
    ∀ init : AreaState,
      configs.foldl (secStep hass) init = init ∨
        ∃ conf ∈ configs, secTriggerMatches hass conf ∧
          configs.foldl (secStep hass) init = conf.forState := by
  induction configs with
  | nil => intro init; left; rfl
  | cons c cs ih =>
    intro init
    rw [List.foldl_cons]
    rcases secStep_cases hass init c with h | ⟨hm, h⟩
    · rw [h]
      rcases ih init with h2 | ⟨conf, hc, hm2, h2⟩
      · left; exact h2
      · right; exact ⟨conf, List.mem_cons_of_mem _ hc, hm2, h2⟩
    · rw [h]
      rcases ih c.forState with h2 | ⟨conf, hc, hm2, h2⟩
      · right; exact ⟨c, List.mem_cons_self _ _, hm, h2⟩
      · right; exact ⟨conf, List.mem_cons_of_mem _ hc, hm2, h2⟩

/-- The secondary resolution returns Occupied or the resulting state of
a matching secondary configuration. -/
theorem resolveSecondary_cases (configs : List StateConfigData) (hass : Hass) :
    resolveSecondary configs hass = AreaState.occupied ∨
      ∃ conf ∈ configs, secTriggerMatches hass conf ∧
        resolveSecondary configs hass = conf.forState :=
  foldl_secStep_cases hass configs AreaState.occupied

/-- When every presence sensor is missing or reports a state outside the
on states, the sensor loop collects nothing. -/
theorem computeActiveSensors_empty (sensors validStates : List String)
    (hass : Hass)
    (hsensors : ∀ s ∈ sensors, hass s = none ∨
      ∃ v, hass s = some v ∧ v ∉ validStates) :
    computeActiveSensors sensors validStates hass = [] := by
  unfold computeActiveSensors
  rw [List.filter_eq_nil_iff]
  intro s hs
  rcases hsensors s hs with h | ⟨v, hv, hnv⟩
  · simp [h]
  · simp [hv, hnv]

/-- When every presence sensor is inactive and neither trend signal is
on, the aggregation reports not occupied and leaves the last off time
unchanged. -/
theorem getSensorsState_allInactive (ctx : SelectCtx) (hass : Hass) (now : ℚ)
    (st : SelectSt)
    (hmode : ctx.mode = "one")
    (hmeta : ctx.isMeta = false)
    (hsensors : ∀ s ∈ ctx.sensors, hass s = none ∨
      ∃ v, hass s = some v ∧ v ∉ ctx.onStates)
    (htu : ∀ v, hass ctx.trendUpId = some v → v ≠ "on")
    (htd : ∀ v, hass ctx.trendDownId = some v → v ≠ "on") :
    getSensorsState ctx hass now st =
      (false, { st with activeSensorsAttr := [] }) := by
  have hfilter : computeActiveSensors ctx.sensors ctx.onStates hass = [] :=
    computeActiveSensors_empty ctx.sensors ctx.onStates hass hsensors
  unfold getSensorsState
  rw [hmeta, hmode]
  simp only [if_false, Bool.false_eq_true, ite_false, hfilter]
  cases hu : hass ctx.trendUpId with
  | none => simp
  | some up =>
    cases hd : hass ctx.trendDownId with
    | none => simp
    | some down =>
      have hu2 : ¬ up = "on" := htu up hu
      have hd2 : ¬ down = "on" := htd down hd
      simp [hu2, hd2]

/-- The occupancy windows of evalOccupancy: below the clear timeout the
secondary resolution decides, between clear and clear plus extended the
state is Extended, at or past the sum it is Clear. -/
theorem evalOccupancy_windows (ctx : SelectCtx) (hass : Hass) (now : ℚ)
    (st : SelectSt) (hext : 0 ≤ ctx.extendedTimeout) :
    ((now - st.lastOffTime < (ctx.clearTimeout : ℚ) →
      (evalOccupancy ctx hass now false st).1 =
        resolveSecondary ctx.stateConfigs hass) ∧
    ((ctx.clearTimeout : ℚ) ≤ now - st.lastOffTime →
      now - st.lastOffTime < (ctx.clearTimeout : ℚ) + (ctx.extendedTimeout : ℚ) →
      (evalOccupancy ctx hass now false st).1 = AreaState.extended) ∧
    ((ctx.clearTimeout : ℚ) + (ctx.extendedTimeout : ℚ) ≤ now - st.lastOffTime →
      (evalOccupancy ctx hass now false st).1 = AreaState.clear)) := by
  unfold evalOccupancy
  refine ⟨fun h1 => ?_, fun h1 h2 => ?_, fun h1 => ?_⟩
  · have hn : ¬ now - st.lastOffTime ≥ (ctx.clearTimeout : ℚ) := by linarith
    simp only [Bool.false_eq_true, not_false_eq_true, if_true, hn, if_false]
  · have hge : now - st.lastOffTime ≥ (ctx.clearTimeout : ℚ) := h1
    have hlt : ¬ now - st.lastOffTime ≥
        (ctx.extendedTimeout : ℚ) + (ctx.clearTimeout : ℚ) := by linarith
    simp only [Bool.false_eq_true, not_false_eq_true, if_true, hge, hlt, if_false]
  · have hE : (0 : ℚ) ≤ (ctx.extendedTimeout : ℚ) := by exact_mod_cast hext
    have hge : now - st.lastOffTime ≥ (ctx.clearTimeout : ℚ) := by linarith
    have hge2 : now - st.lastOffTime ≥
        (ctx.extendedTimeout : ℚ) + (ctx.clearTimeout : ℚ) := by linarith
    simp only [Bool.false_eq_true, not_false_eq_true, if_true, hge, hge2]

/-- C1: when every presence sensor is inactive (missing or outside the on
states), neither trend signal is on, the area is not a meta area and the
mode is the default, then with clear timeout C and extended timeout E the
evaluation get_current_area_state returns Occupied or a matching
secondary state while the elapsed time since the last off time is below
C, Extended while it lies in the window from C up to C plus E, and Clear
at or past C plus E. -/
theorem c1_occupancy_timeout_windows (ctx : SelectCtx) (hass : Hass)
    (now : ℚ) (st : SelectSt)
    (hmode : ctx.mode = "one")
    (hmeta : ctx.isMeta = false)
    (hext : 0 ≤ ctx.extendedTimeout)
    (hsensors : ∀ s ∈ ctx.sensors, hass s = none ∨
      ∃ v, hass s = some v ∧ v ∉ ctx.onStates)
    (htu : ∀ v, hass ctx.trendUpId = some v → v ≠ "on")
    (htd : ∀ v, hass ctx.trendDownId = some v → v ≠ "on") :
    (now - st.lastOffTime < (ctx.clearTimeout : ℚ) →
      (getCurrentAreaState ctx hass now st).1 = AreaState.occupied ∨
        ∃ conf ∈ ctx.stateConfigs, secTriggerMatches hass conf ∧
          (getCurrentAreaState ctx hass now st).1 = conf.forState) ∧
    ((ctx.clearTimeout : ℚ) ≤ now - st.lastOffTime →
      now - st.lastOffTime < (ctx.clearTimeout : ℚ) + (ctx.extendedTimeout : ℚ) →
      (getCurrentAreaState ctx hass now st).1 = AreaState.extended) ∧
    ((ctx.clearTimeout : ℚ) + (ctx.extendedTimeout : ℚ) ≤ now - st.lastOffTime →
      (getCurrentAreaState ctx hass now st).1 = AreaState.clear) := by
  have hgs := getSensorsState_allInactive ctx hass now st hmode hmeta hsensors
    htu htd
  have heval : getCurrentAreaState ctx hass now st =
      evalOccupancy ctx hass now false { st with activeSensorsAttr := [] } := by
    unfold getCurrentAreaState
    rw [hgs]
  have hwin := evalOccupancy_windows ctx hass now
    { st with activeSensorsAttr := [] } hext
  refine ⟨fun h1 => ?_, fun h1 h2 => ?_, fun h1 => ?_⟩
  · rw [heval, hwin.1 h1]
    exact resolveSecondary_cases ctx.stateConfigs hass
  · rw [heval]
    exact hwin.2.1 h1 h2
  · rw [heval]
    exact hwin.2.2 h1

/-- C1 witness: with one missing motion sensor, clear timeout 60 and
extended timeout 30, the evaluation 70 seconds after the last off time
returns Extended. -/
theorem c1_witness :
    (getCurrentAreaState
      ⟨["binary_sensor.motion"], ["on"], false, "one",
        "binary_sensor.trend_up", "binary_sensor.trend_down", 60, 30, []⟩
      (fun _ => none) 70
      ⟨AreaState.occupied, 0, none, none, 0, [], [], []⟩).1 =
      AreaState.extended := by
  have h := c1_occupancy_timeout_windows
    ⟨["binary_sensor.motion"], ["on"], false, "one",
      "binary_sensor.trend_up", "binary_sensor.trend_down", 60, 30, []⟩
    (fun _ => none) 70
    ⟨AreaState.occupied, 0, none, none, 0, [], [], []⟩
    rfl rfl (by norm_num)
    (fun s _ => Or.inl rfl)
    (fun v hv => by cases hv)
    (fun v hv => by cases hv)
  exact h.2.1 (by norm_num) (by norm_num)

/-- Invalid state strings are never the on state. -/
theorem invalid_ne_on (v : String) (hv : v ∈ INVALID_STATES) : v ≠ "on" := by
  simp only [INVALID_STATES, List.mem_cons, List.mem_singleton,
    List.not_mem_nil, or_false] at hv
  rcases hv with h | h | h <;> subst h <;> decide

/-- A sensor reporting an invalid state never passes the sensor loop
filter. -/
theorem invalid_not_in_computeActive (sensors validStates : List String)
    (hass : Hass) (s v : String) (hs : hass s = some v)
    (hv : v ∈ INVALID_STATES) :
    s ∉ computeActiveSensors sensors validStates hass := by
  simp [computeActiveSensors, List.mem_filter, hs, hv]

/-- C7: a sensor whose state is in the invalid set is never counted as
active, neither by the sensor loop filter nor in the active sensor
attribute written by _get_sensors_state, and a sensor state change event
carrying an invalid state leaves the select state, in particular the
last off time, completely unchanged. -/
theorem getSensorsState_activeAttr (ctx : SelectCtx) (hass : Hass) (now : ℚ)
    (st : SelectSt) :
    ((getSensorsState ctx hass now st).2.activeSensorsAttr =
      computeActiveSensors ctx.sensors
        (if ctx.isMeta then ["on"] else ctx.onStates) hass) ∨
    ((getSensorsState ctx hass now st).2.activeSensorsAttr =
      computeActiveSensors ctx.sensors
        (if ctx.isMeta then ["on"] else ctx.onStates) hass ++ [ctx.trendUpId] ∧
      hass ctx.trendUpId = some "on") := by
  unfold getSensorsState
  dsimp only
  set vs := if ctx.isMeta then ["on"] else ctx.onStates with hvs
  set A := computeActiveSensors ctx.sensors vs hass with hAdef
  by_cases hlen : A.length = 0
  · rw [if_pos hlen]
    cases hu : hass ctx.trendUpId with
    | none =>
      left
      dsimp only
      by_cases hmode : ctx.mode = "all"
      · rw [if_pos hmode]
      · rw [if_neg hmode]
    | some up =>
      cases hd : hass ctx.trendDownId with
      | none =>
        left
        dsimp only
        by_cases hmode : ctx.mode = "all"
        · rw [if_pos hmode]
        · rw [if_neg hmode]
      | some down =>
        by_cases hcond : up = "on" ∧ down ≠ "on"
        · right
          constructor
          · dsimp only
            rw [if_pos hcond]
            by_cases hmode : ctx.mode = "all"
            · rw [if_pos hmode]
            · rw [if_neg hmode]
          · rw [hcond.1]
        · left
          dsimp only
          rw [if_neg hcond]
          by_cases hmode : ctx.mode = "all"
          · rw [if_pos hmode]
          · rw [if_neg hmode]
  · rw [if_neg hlen]
    left
    by_cases hmode : ctx.mode = "all"
    · rw [if_pos hmode]
    · rw [if_neg hmode]

/-- C7: a sensor whose state is in the invalid set is never counted as
active, neither by the sensor loop filter nor in the active sensor
attribute written by _get_sensors_state, and a sensor state change event
carrying an invalid state leaves the select state, in particular the
last off time, completely unchanged. -/
theorem c7_invalid_states_ignored (ctx : SelectCtx) (hass : Hass)
    (sensors validStates : List String) (s v : String) (now : ℚ)
    (st : SelectSt) (hs : hass s = some v) (hv : v ∈ INVALID_STATES) :
    s ∉ computeActiveSensors sensors validStates hass ∧
    s ∉ (getSensorsState ctx hass now st).2.activeSensorsAttr ∧
    (∀ toState ∈ INVALID_STATES,
      sensorStateChange ctx hass (some toState) now st = st) := by
  have hA : ∀ vs, s ∉ computeActiveSensors ctx.sensors vs hass := fun vs =>
    invalid_not_in_computeActive ctx.sensors vs hass s v hs hv
  have hne : v ≠ "on" := invalid_ne_on v hv
  refine ⟨invalid_not_in_computeActive sensors validStates hass s v hs hv,
    ?_, ?_⟩
  · rcases getSensorsState_activeAttr ctx hass now st with h | ⟨h, hon⟩
    · rw [h]
      exact hA _
    · rw [h]
      simp only [List.mem_append, List.mem_singleton, not_or]
      refine ⟨hA _, fun hEq => ?_⟩
      rw [hEq, hon] at hs
      exact hne (by injection hs with h2; exact h2.symm)
  · intro toState ht
    unfold sensorStateChange
    simp [ht]

/-- C7 witness: a sensor reporting unavailable is not collected and an
unknown transition leaves the state untouched. -/
theorem c7_witness :
    "binary_sensor.m1" ∉ computeActiveSensors ["binary_sensor.m1"] ["on"]
      (fun i => if i = "binary_sensor.m1" then some "unavailable" else none) ∧
    sensorStateChange
      ⟨["binary_sensor.m1"], ["on"], false, "one", "binary_sensor.up",
        "binary_sensor.down", 60, 30, []⟩
      (fun i => if i = "binary_sensor.m1" then some "unavailable" else none)
      (some "unknown") 5
      ⟨AreaState.occupied, 0, none, none, 0, [], [], []⟩ =
      ⟨AreaState.occupied, 0, none, none, 0, [], [], []⟩ := by
  have h := c7_invalid_states_ignored
    ⟨["binary_sensor.m1"], ["on"], false, "one", "binary_sensor.up",
      "binary_sensor.down", 60, 30, []⟩
    (fun i => if i = "binary_sensor.m1" then some "unavailable" else none)
    ["binary_sensor.m1"] ["on"] "binary_sensor.m1" "unavailable" 5
    ⟨AreaState.occupied, 0, none, none, 0, [], [], []⟩
    (by decide) (by decide)
  exact ⟨h.1, h.2.2 "unknown" (by decide)⟩

/-- C8: starting a timer of a kind first cancels any pending timer of
that kind and leaves exactly the newly scheduled one, and cancelling is
an idempotent no-op when no timer is pending or when called a second
time, for both the clear and the extended timer. -/
theorem c8_timer_replace_and_idempotent_cancel (st : SelectSt) (t : ℚ) :
    ((setClearTimeout t st).clearCb = some st.nextTimerId ∧
      (∀ i, st.clearCb = some i → (setClearTimeout t st).timerLog =
        st.timerLog ++ [TimerEvent.cancel i, TimerEvent.sched st.nextTimerId t]) ∧
      (st.clearCb = none → (setClearTimeout t st).timerLog =
        st.timerLog ++ [TimerEvent.sched st.nextTimerId t])) ∧
    (st.clearCb = none → removeClearTimeout st = st) ∧
    (removeClearTimeout (removeClearTimeout st) = removeClearTimeout st) ∧
    ((setExtendedTimeout t st).extendedCb = some st.nextTimerId ∧
      (∀ i, st.extendedCb = some i → (setExtendedTimeout t st).timerLog =
        st.timerLog ++ [TimerEvent.cancel i, TimerEvent.sched st.nextTimerId t]) ∧
      (st.extendedCb = none → (setExtendedTimeout t st).timerLog =
        st.timerLog ++ [TimerEvent.sched st.nextTimerId t])) ∧
    (st.extendedCb = none → removeExtendedTimeout st = st) ∧
    (removeExtendedTimeout (removeExtendedTimeout st) = removeExtendedTimeout st)
    := by
  cases hc : st.clearCb with
  | none =>
    cases he : st.extendedCb with
    | none =>
      refine ⟨⟨?_, ?_, ?_⟩, ?_, ?_, ⟨?_, ?_, ?_⟩, ?_, ?_⟩ <;>
        simp [setClearTimeout, removeClearTimeout, setExtendedTimeout,
          removeExtendedTimeout, hc, he]
    | some j =>
      refine ⟨⟨?_, ?_, ?_⟩, ?_, ?_, ⟨?_, ?_, ?_⟩, ?_, ?_⟩ <;>
        simp [setClearTimeout, removeClearTimeout, setExtendedTimeout,
          removeExtendedTimeout, hc, he]
  | some i =>
    cases he : st.extendedCb with
    | none =>
      refine ⟨⟨?_, ?_, ?_⟩, ?_, ?_, ⟨?_, ?_, ?_⟩, ?_, ?_⟩ <;>
        simp [setClearTimeout, removeClearTimeout, setExtendedTimeout,
          removeExtendedTimeout, hc, he]
    | some j =>
      refine ⟨⟨?_, ?_, ?_⟩, ?_, ?_, ⟨?_, ?_, ?_⟩, ?_, ?_⟩ <;>
        simp [setClearTimeout, removeClearTimeout, setExtendedTimeout,
          removeExtendedTimeout, hc, he]

/-- C8 witness: with a pending clear timer with handle 3, handle counter
5 and a pending extended timer with handle 4, arming a clear timer
cancels handle 3 and schedules handle 5, and double cancellation equals
single cancellation. -/
theorem c8_witness :
    (setClearTimeout 60
      ⟨AreaState.occupied, 0, some 3, some 4, 5, [], [], []⟩).clearCb = some 5 ∧
    (setClearTimeout 60
      ⟨AreaState.occupied, 0, some 3, some 4, 5, [], [], []⟩).timerLog =
      [TimerEvent.cancel 3, TimerEvent.sched 5 60] ∧
    removeClearTimeout (removeClearTimeout
      ⟨AreaState.occupied, 0, some 3, some 4, 5, [], [], []⟩) =
      removeClearTimeout
        ⟨AreaState.occupied, 0, some 3, some 4, 5, [], [], []⟩ := by
  have h := c8_timer_replace_and_idempotent_cancel
    ⟨AreaState.occupied, 0, some 3, some 4, 5, [], [], []⟩ 60
  exact ⟨h.1.1, h.1.2.1 3 rfl, h.2.2.1⟩

/-- C2: the turn on and turn off procedures never consult the manual
control attribute: for every value of the attribute (absent, stored
automatic, stored manual) an otherwise identical state yields the same
issued service calls, here a turn_on at brightness 204 and a turn_off,
so manual control suppresses no actuator command. -/
theorem c2_manual_flag_not_consulted :
    ∀ b : Option Bool,
      (turnOnLight ⟨10, 50, true, 300, "sensor.lux"⟩
        ⟨none, "on", AreaState.occupied, ["light.a"], 80⟩
        (fun _ => none)
        ⟨[], false, none, false, b, some 0, none⟩).2 = [LightCmd.turnOn 204] ∧
      (turnOffLight ⟨10, 50, true, 300, "sensor.lux"⟩
        ⟨[], true, some 204, false, b, some 0, none⟩).2 = [LightCmd.turnOff] := by
  intro b
  constructor
  · norm_num [turnOnLight, getIlluminance, computeBrightness, pyInt]
  · norm_num [turnOffLight]

/-- C3: the manual control setter does not persist its argument: it is
the identity on the state, and in particular writing true to a state
whose attribute is unset still reads back false. -/
theorem c3_set_controlled_write_lost :
    (∀ (st : LightSt) (b : Bool), setControlledByThisEntity st b = st) ∧
    isControlledByThisEntity
      (setControlledByThisEntity
        ⟨[], false, none, false, none, none, none⟩ true) = false ∧
    isControlledByThisEntity
      (setControlledByThisEntity
        ⟨[], false, none, false, some false, none, none⟩ true) = false :=
  ⟨fun st b => rfl, rfl, rfl⟩

/-- C4: a transition of the area state to Clear does not release manual
control: with no configured Clear state the handler returns the state
unchanged, so a stored manual override attribute survives, and with a
configured Clear state the handler even issues a turn_on service call. -/
theorem c4_clear_transition_keeps_manual_state :
    (areaStateChange ⟨10, 50, true, 300, "sensor.lux"⟩ (fun _ => none)
        (fun _ => none) (some "occupied") (some "clear")
        ⟨[], false, none, false, some false, none, none⟩) =
      (⟨[], false, none, false, some false, none, none⟩, []) ∧
    isControlledByThisEntity
      ⟨[], false, none, false, some false, none, none⟩ = false ∧
    (areaStateChange ⟨10, 50, true, 300, "sensor.lux"⟩
        (fun s => if s = AreaState.clear then
          some ⟨none, "on", AreaState.clear, ["light.a"], 80⟩ else none)
        (fun _ => none) (some "occupied") (some "clear")
        ⟨[], false, none, false, some false, none, none⟩).2 =
      [LightCmd.turnOn 204] := by
  refine ⟨rfl, rfl, ?_⟩
  norm_num [areaStateChange, parseAreaState, turnOnLight, getIlluminance,
    computeBrightness, pyInt]

/-- C5: with nominal brightness N computed from the configured dim level
and illuminance L read by _get_illuminance, when the thresholds satisfy
min < max: at L at most min the brightness stays N, strictly between the
thresholds it is the truncation of N times the linear factor, and at L
at least max it is 0 and the invocation routes to the turn off
procedure; at L at most min with N nonzero the invocation issues a
turn_on at N; the spec instance min 10, max 50, L 30, N 200 yields 100. -/
theorem c5_brightness_from_illuminance (cfg : LightCfg)
    (conf : StateConfigData) (hass : Hass) (st : LightSt) (N : ℤ) (L : ℚ)
    (hmm : cfg.minBrightness < cfg.maxBrightness)
    (hctl : cfg.systemControlEnabled = true)
    (hN : N = pyInt (conf.dimLevel * 255 / 100))
    (hL : L = (getIlluminance cfg hass { st with entityIds := conf.lights }).1)
    (hnot : ¬ (st.isOn = true ∧ st.brightness = some N)) :
    (L ≤ cfg.minBrightness → computeBrightness cfg N L = N) ∧
    (cfg.minBrightness < L → L < cfg.maxBrightness →
      computeBrightness cfg N L =
        pyInt ((N : ℚ) * (1 - (L - cfg.minBrightness) /
          (cfg.maxBrightness - cfg.minBrightness)))) ∧
    (cfg.maxBrightness ≤ L →
      computeBrightness cfg N L = 0 ∧
      turnOnLight cfg conf hass st =
        turnOffLight cfg
          (getIlluminance cfg hass { st with entityIds := conf.lights }).2) ∧
    (L ≤ cfg.minBrightness → N ≠ 0 →
      turnOnLight cfg conf hass st =
        ({ (getIlluminance cfg hass { st with entityIds := conf.lights }).2 with
            lastUpdateFromEntity := true }, [LightCmd.turnOn N])) ∧
    computeBrightness ⟨10, 50, true, 300, "sensor.lux"⟩ 200 30 = 100 := by
  have hzero : cfg.maxBrightness ≤ L → computeBrightness cfg N L = 0 := by
    intro h1
    unfold computeBrightness
    rw [if_pos (lt_of_lt_of_le hmm h1)]
    by_cases h2 : L > cfg.maxBrightness
    · rw [if_pos h2]
    · rw [if_neg h2]
      have hLmax : L = cfg.maxBrightness := le_antisymm (not_lt.mp h2) h1
      have hdiff : (L - cfg.minBrightness) /
          (cfg.maxBrightness - cfg.minBrightness) = 1 := by
        rw [hLmax]
        exact div_self (ne_of_gt (sub_pos.mpr hmm))
      dsimp only
      rw [hdiff]
      norm_num [pyInt]
  have hkeep : L ≤ cfg.minBrightness → computeBrightness cfg N L = N := by
    intro h1
    unfold computeBrightness
    rw [if_neg (not_lt.mpr h1)]
  have hopen :
      turnOnLight cfg conf hass st =
        (if ¬ cfg.systemControlEnabled = true then
          ((getIlluminance cfg hass { st with entityIds := conf.lights }).2, [])
        else if computeBrightness cfg N
            (getIlluminance cfg hass { st with entityIds := conf.lights }).1
            = 0 then
          turnOffLight cfg
            (getIlluminance cfg hass { st with entityIds := conf.lights }).2
        else
          ({ (getIlluminance cfg hass
              { st with entityIds := conf.lights }).2 with
              lastUpdateFromEntity := true },
            [LightCmd.turnOn (computeBrightness cfg N
              (getIlluminance cfg hass
                { st with entityIds := conf.lights }).1)])) := by
    unfold turnOnLight
    dsimp only
    rw [← hN, if_neg hnot]
  refine ⟨hkeep, ?_, fun h1 => ⟨hzero h1, ?_⟩, fun h1 hN0 => ?_, ?_⟩
  · intro h1 h2
    unfold computeBrightness
    rw [if_pos h1, if_neg (not_lt.mpr (le_of_lt h2))]
  · rw [hopen]
    rw [if_neg (by simp [hctl])]
    rw [if_pos (by rw [← hL]; exact hzero h1)]
  · rw [hopen]
    rw [if_neg (by simp [hctl])]
    have hbN : computeBrightness cfg N
        (getIlluminance cfg hass { st with entityIds := conf.lights }).1 = N := by
      rw [← hL]
      exact hkeep h1
    rw [hbN, if_neg hN0]
  · norm_num [computeBrightness, pyInt]

/-- C5 witness: the spec instance min 10, max 50, illuminance 30,
nominal 200 follows the linear interpolation and equals 100. -/
theorem c5_witness :
    computeBrightness ⟨10, 50, true, 300, "sensor.lux"⟩ 200 30 =
      pyInt ((200 : ℚ) * (1 - ((30 : ℚ) - 10) / ((50 : ℚ) - 10))) ∧
    computeBrightness ⟨10, 50, true, 300, "sensor.lux"⟩ 200 30 = 100 := by
  have h := c5_brightness_from_illuminance ⟨10, 50, true, 300, "sensor.lux"⟩
    ⟨none, "on", AreaState.occupied, ["light.a"], 4000 / 51⟩
    (fun _ => some "30") ⟨[], false, none, false, none, none, none⟩ 200 30
    (by norm_num) rfl (by norm_num [pyInt])
    rfl (by simp)
  refine ⟨?_, h.2.2.2.2⟩
  have h2 := h.2.1 (by norm_num) (by norm_num)
  simpa using h2

/-- C6 counterexample: a group already on at exactly the commanded
(illuminance scaled) brightness 102 still gets a turn_on command because
the no-op check compares against the nominal brightness 204, and a
second invocation in the unchanged environment issues a second command:
two successive invocations issue two commands, not at most one. -/
theorem c6_counterexample :
    ((⟨[], true, some 102, false, none, some 30, none⟩ : LightSt).isOn = true ∧
      (⟨[], true, some 102, false, none, some 30, none⟩ : LightSt).brightness =
        some 102) ∧
    (turnOnLight ⟨10, 50, true, 300, "sensor.lux"⟩
        ⟨none, "on", AreaState.occupied, ["light.a"], 80⟩ (fun _ => none)
        ⟨[], true, some 102, false, none, some 30, none⟩).2 =
      [LightCmd.turnOn 102] ∧
    (turnOnLight ⟨10, 50, true, 300, "sensor.lux"⟩
        ⟨none, "on", AreaState.occupied, ["light.a"], 80⟩ (fun _ => none)
        (applyCmds
          (turnOnLight ⟨10, 50, true, 300, "sensor.lux"⟩
            ⟨none, "on", AreaState.occupied, ["light.a"], 80⟩ (fun _ => none)
            ⟨[], true, some 102, false, none, some 30, none⟩).1
          (turnOnLight ⟨10, 50, true, 300, "sensor.lux"⟩
            ⟨none, "on", AreaState.occupied, ["light.a"], 80⟩ (fun _ => none)
            ⟨[], true, some 102, false, none, some 30, none⟩).2)).2 =
      [LightCmd.turnOn 102] := by
  refine ⟨⟨rfl, rfl⟩, ?_, ?_⟩ <;>
    norm_num [turnOnLight, getIlluminance, computeBrightness, pyInt,
      applyCmds, applyCmd]

/-- C6 amended: the no-op check of the turn on procedure compares the
group state against the nominal brightness (the configured dim level
mapped to 0 to 255), not the illuminance scaled commanded brightness: a
group already on at exactly the nominal brightness gets no command, and
when the commanded brightness equals the nominal one (illuminance at or
below the minimum threshold) two successive invocations issue at most
one command, the second being a no-op. -/
theorem c6_turn_on_idempotent_at_nominal (cfg : LightCfg)
    (conf : StateConfigData) (hass : Hass) (st : LightSt)
    (hctl : cfg.systemControlEnabled = true) :
    (st.isOn = true →
      st.brightness = some (pyInt (conf.dimLevel * 255 / 100)) →
      turnOnLight cfg conf hass st =
        ({ st with entityIds := conf.lights }, [])) ∧
    (st.isOn = false →
      ∀ sv L, hass cfg.illumSensorId = some sv → parseFloat sv = some L →
        L ≤ cfg.minBrightness →
        pyInt (conf.dimLevel * 255 / 100) ≠ 0 →
        (turnOnLight cfg conf hass
          (applyCmds (turnOnLight cfg conf hass st).1
            (turnOnLight cfg conf hass st).2)).2 = []) := by
  constructor
  · intro h1 h2
    unfold turnOnLight
    dsimp only
    rw [if_pos ⟨h1, h2⟩]
  · intro h0 sv L hsv hpf hLmin hN0
    have hread : getIlluminance cfg hass { st with entityIds := conf.lights } =
        (L,
          { st with
              entityIds := conf.lights
              lastOnIlluminance := some L }) := by
      unfold getIlluminance
      simp only [h0, Bool.false_eq_true, if_false, hsv, hpf]
    have hbr : computeBrightness cfg (pyInt (conf.dimLevel * 255 / 100)) L =
        pyInt (conf.dimLevel * 255 / 100) := by
      unfold computeBrightness
      rw [if_neg (not_lt.mpr hLmin)]
    have hfirst : turnOnLight cfg conf hass st =
        ({ st with
              entityIds := conf.lights
              lastUpdateFromEntity := true
              lastOnIlluminance := some L },
          [LightCmd.turnOn (pyInt (conf.dimLevel * 255 / 100))]) := by
      unfold turnOnLight
      dsimp only
      rw [if_neg (by simp [h0])]
      rw [hread]
      dsimp only
      rw [if_neg (by simp [hctl]), hbr, if_neg hN0]
    rw [hfirst]
    dsimp only [applyCmds, List.foldl_cons, List.foldl_nil, applyCmd]
    unfold turnOnLight
    dsimp only
    rw [if_pos ⟨rfl, rfl⟩]

/-- C6 witness: a group on at the nominal brightness 204 gets no
command, and starting from off with illuminance 5 below the minimum two
successive invocations leave the second one a no-op. -/
theorem c6_witness :
    turnOnLight ⟨10, 50, true, 300, "sensor.lux"⟩
      ⟨none, "on", AreaState.occupied, ["light.a"], 80⟩ (fun _ => some "5")
      ⟨[], true, some 204, false, none, some 30, none⟩ =
      (⟨["light.a"], true, some 204, false, none, some 30, none⟩, []) ∧
    (turnOnLight ⟨10, 50, true, 300, "sensor.lux"⟩
      ⟨none, "on", AreaState.occupied, ["light.a"], 80⟩ (fun _ => some "5")
      (applyCmds
        (turnOnLight ⟨10, 50, true, 300, "sensor.lux"⟩
          ⟨none, "on", AreaState.occupied, ["light.a"], 80⟩ (fun _ => some "5")
          ⟨[], false, none, false, none, none, none⟩).1
        (turnOnLight ⟨10, 50, true, 300, "sensor.lux"⟩
          ⟨none, "on", AreaState.occupied, ["light.a"], 80⟩ (fun _ => some "5")
          ⟨[], false, none, false, none, none, none⟩).2)).2 = [] := by
  have h := c6_turn_on_idempotent_at_nominal ⟨10, 50, true, 300, "sensor.lux"⟩
    ⟨none, "on", AreaState.occupied, ["light.a"], 80⟩ (fun _ => some "5")
    ⟨[], true, some 204, false, none, some 30, none⟩ rfl
  have h2 := c6_turn_on_idempotent_at_nominal ⟨10, 50, true, 300, "sensor.lux"⟩
    ⟨none, "on", AreaState.occupied, ["light.a"], 80⟩ (fun _ => some "5")
    ⟨[], false, none, false, none, none, none⟩ rfl
  constructor
  · have h3 := h.1 rfl (by norm_num [pyInt])
    simpa using h3
  · exact h2.2 rfl "5" 5 rfl rfl (by norm_num) (by norm_num [pyInt])

/-- C9 counterexample: with the group off, a present illuminance sensor
whose state abc does not parse, and a stored last on illuminance of 5,
the read returns 0 but leaves the stored record at 5 instead of
recording 0. -/
theorem c9_counterexample :
    (getIlluminance ⟨10, 50, true, 300, "sensor.lux"⟩
        (fun i => if i = "sensor.lux" then some "abc" else none)
        ⟨[], false, none, false, none, some 5, none⟩).1 = 0 ∧
    (getIlluminance ⟨10, 50, true, 300, "sensor.lux"⟩
        (fun i => if i = "sensor.lux" then some "abc" else none)
        ⟨[], false, none, false, none, some 5, none⟩).2.lastOnIlluminance =
      some 5 ∧
    some (5 : ℚ) ≠ some (0 : ℚ) := by
  refine ⟨rfl, rfl, by norm_num⟩

/-- C9 amended: when the group is on the last recorded on illuminance
(or 0 when absent) is reused without reading the sensor; when the group
is off and the sensor entity is missing the read returns 0 and records
0; when the group is off and the sensor state does not parse as a float
the read returns 0 and leaves the record unchanged. -/
theorem c9_illuminance_read_paths (cfg : LightCfg) (hass : Hass)
    (st : LightSt) :
    (st.isOn = true →
      getIlluminance cfg hass st = (st.lastOnIlluminance.getD 0, st)) ∧
    (st.isOn = false → hass cfg.illumSensorId = none →
      getIlluminance cfg hass st =
        (0, { st with lastOnIlluminance := some 0 })) ∧
    (st.isOn = false → ∀ sv, hass cfg.illumSensorId = some sv →
      parseFloat sv = none → getIlluminance cfg hass st = (0, st)) := by
  refine ⟨fun h1 => ?_, fun h1 h2 => ?_, fun h1 sv h2 h3 => ?_⟩
  · unfold getIlluminance
    rw [if_pos h1]
    cases hlast : st.lastOnIlluminance <;> simp [hlast]
  · unfold getIlluminance
    simp [h1, h2]
  · unfold getIlluminance
    simp [h1, h2, h3]

/-- C9 witness: the three read paths at concrete inputs: on with stored
7 reuses 7 ignoring the sensor, off with a missing sensor returns and
records 0, off with the unparseable state abc returns 0 and keeps 7. -/
theorem c9_witness :
    getIlluminance ⟨10, 50, true, 300, "sensor.lux"⟩ (fun _ => some "40")
      ⟨[], true, none, false, none, some 7, none⟩ =
      (7, ⟨[], true, none, false, none, some 7, none⟩) ∧
    getIlluminance ⟨10, 50, true, 300, "sensor.lux"⟩ (fun _ => none)
      ⟨[], false, none, false, none, some 7, none⟩ =
      (0, ⟨[], false, none, false, none, some 0, none⟩) ∧
    getIlluminance ⟨10, 50, true, 300, "sensor.lux"⟩ (fun _ => some "abc")
      ⟨[], false, none, false, none, some 7, none⟩ =
      (0, ⟨[], false, none, false, none, some 7, none⟩) := by
  refine ⟨?_, ?_, ?_⟩
  · have h := (c9_illuminance_read_paths ⟨10, 50, true, 300, "sensor.lux"⟩
      (fun _ => some "40") ⟨[], true, none, false, none, some 7, none⟩).1 rfl
    simpa using h
  · have h := (c9_illuminance_read_paths ⟨10, 50, true, 300, "sensor.lux"⟩
      (fun _ => none) ⟨[], false, none, false, none, some 7, none⟩).2.1 rfl rfl
    simpa using h
  · have h := (c9_illuminance_read_paths ⟨10, 50, true, 300, "sensor.lux"⟩
      (fun _ => some "abc")
      ⟨[], false, none, false, none, some 7, none⟩).2.2 rfl "abc" rfl rfl
    simpa using h
